import Mathlib

/-
Verification of the MarketSenseAI analysis-orchestration core against its
specification.  The embedding below translates the relevant Python code
(src/application/agents/synthesis_agent.py,
src/application/services/analysis_service.py,
src/application/services/conversation_manager.py) into Lean definitions.
Python strings are modelled as `List Char`, Python floats as `Rat`
(the numeric claims are about exact threshold comparisons), Python dicts
with known keys as structures of `Option`-typed fields (a `none` field
models an absent key), and raised exceptions as `Except` errors.
-/

namespace MarketSense

/-- Python strings are modelled as lists of characters. -/
abbrev Str := List Char

/-! ## Synthesis agent (synthesis_agent.py) -/

/-- Directions produced by the keyword classifier in `_synthesize_results`
(the Python code uses the strings "bullish" / "bearish" / "neutral"). -/
inductive Direction where
  | bullish
  | bearish
  | neutral
deriving DecidableEq, Fintype

/-- Trading actions derived by `_synthesize_results` (strings "buy" / "sell" / "hold"). -/
inductive TradeAction where
  | buy
  | sell
  | hold
deriving DecidableEq, Fintype

/-- Position sizes derived by `_synthesize_results` (strings "small" / "medium" / "large"). -/
inductive PositionSize where
  | small
  | medium
  | large
deriving DecidableEq, Fintype

/-- Risk levels of `config.constants.RiskLevel` as used by `_get_risk_level`. -/
inductive RiskLevel where
  | very_low
  | low
  | medium
  | high
  | very_high
deriving DecidableEq, Fintype

/-- Specialist result dictionary as consumed by `SynthesisAgent` after
`_ensure_dict` (synthesis_agent.py lines 196-212): a Python dict whose
relevant keys may each be absent (`none`).  `_safe_get(d, k, default)` on a
dict is `d.get(k, default)`, i.e. `Option.getD` on the matching field. -/
structure ResultDict where
  summary : Option Str
  confidence : Option Rat
  outlook : Option Str
  trend : Option Str
  sentiment_label : Option Str
  bullish_factors : Option (List Str)
  bearish_factors : Option (List Str)
  critical_factors : Option (List Str)
  key_risks : Option (List Str)
  risk_mitigations : Option (List Str)
  error : Option Str

/-- Specialist dict with every key absent. -/
def emptyResult : ResultDict :=
  ⟨none, none, none, none, none, none, none, none, none, none, none⟩

/-- Bullish keyword set of `_classify_text_to_direction` (line 303). -/
def bullishKeywords : List Str :=
  ["bull".toList, "positive".toList, "up".toList, "higher".toList, "rally".toList]

/-- Bearish keyword set of `_classify_text_to_direction` (line 305). -/
def bearishKeywords : List Str :=
  ["bear".toList, "negative".toList, "down".toList, "lower".toList, "sell".toList]

/-- Python `text.lower()`. -/
def lowerStr (t : Str) : Str := t.map Char.toLower

/-- `_classify_text_to_direction` (synthesis_agent.py lines 299-307):
empty text is neutral; otherwise lowercase the text, return bullish if any
bullish keyword occurs as a substring, else bearish if any bearish keyword
occurs, else neutral. -/
def classify_text_to_direction (text : Str) : Direction :=
  if text = [] then .neutral
  else
    let t := lowerStr text
    if bullishKeywords.any (fun k => decide (k <:+: t)) then .bullish
    else if bearishKeywords.any (fun k => decide (k <:+: t)) then .bearish
    else .neutral

/-- Direction of the macro specialist (line 319):
`_classify_text_to_direction(_safe_get(macro, "outlook", macro_summary))`
where `macro_summary = _safe_get(macro, "summary", "")`. -/
def macro_direction (r : ResultDict) : Direction :=
  classify_text_to_direction (r.outlook.getD (r.summary.getD []))

/-- Direction of the technical specialist (line 320), keyed on "trend". -/
def technical_direction (r : ResultDict) : Direction :=
  classify_text_to_direction (r.trend.getD (r.summary.getD []))

/-- Direction of the sentiment specialist (line 321), keyed on "sentiment_label". -/
def sentiment_direction (r : ResultDict) : Direction :=
  classify_text_to_direction (r.sentiment_label.getD (r.summary.getD []))

/-- Majority vote of `_synthesize_results` (lines 323-334): count bullish and
bearish directions; strict majority wins, otherwise neutral. -/
def majority_outlook (directions : List Direction) : Direction :=
  let bullish_count := directions.countP (fun d => decide (d = .bullish))
  let bearish_count := directions.countP (fun d => decide (d = .bearish))
  if bullish_count > bearish_count then .bullish
  else if bearish_count > bullish_count then .bearish
  else .neutral

/-- Action mapping of `_synthesize_results` (lines 336-342). -/
def action_for (final_outlook : Direction) : TradeAction :=
  if final_outlook = .bullish then .buy
  else if final_outlook = .bearish then .sell
  else .hold

/-- Confidence as extracted in `_synthesize_results` (lines 314-316):
`float(self._safe_get(x, "confidence", 0.5) or 0.5)`.  A missing key gives
the default 0.5, and Python's `or` also replaces a falsy present value
(0.0) by 0.5. -/
def synth_conf (r : ResultDict) : Rat :=
  match r.confidence with
  | some c => if c = 0 then 1/2 else c
  | none => 1/2

/-- Mean confidence `avg_conf` of `_synthesize_results` (line 345). -/
def avg_confidence (mr tr sr : ResultDict) : Rat :=
  (synth_conf mr + synth_conf tr + synth_conf sr) / 3

/-- Position sizing of `_synthesize_results` (lines 344-351). -/
def position_sizing_of (avg_conf : Rat) : PositionSize :=
  if avg_conf ≥ 3/4 then .large
  else if avg_conf ≥ 3/5 then .medium
  else .small

/-- Python truthiness of `it.strip()`: true iff some character is not whitespace. -/
def nonBlank (s : Str) : Bool := s.any (fun c => !c.isWhitespace)

/-- `_collect_list(field, macro, technical, sentiment)` (lines 354-362): walk
the sources in order; for each, take its field value (skipping an absent or
falsy one, which iterates over nothing) and append each entry that is a
non-blank string not already collected.  The per-field values are passed
here already extracted (`_safe_get(s, field, [])`). -/
def collect_list (sources : List (Option (List Str))) : List Str :=
  sources.foldl
    (fun items src =>
      match src with
      | none => items
      | some field_value =>
          field_value.foldl
            (fun its it =>
              if nonBlank it = true ∧ it ∉ its then its ++ [it] else its)
            items)
    []

/-- Specification-side definition (for the refinement claim about factor
aggregation): keep each string's first occurrence, dropping later exact
duplicates. -/
def firstOccurrences : List Str → List Str
  | [] => []
  | x :: xs => x :: firstOccurrences (xs.filter (fun y => decide (y ≠ x)))
termination_by l => l.length
decreasing_by
  simp only [List.length_cons]
  exact Nat.lt_succ_of_le (List.length_filter_le _ _)

/-- Specification-side definition, following the spec's words: concatenated
entries with blank/whitespace-only entries dropped and exact-duplicate
strings dropped, first-seen order preserved. -/
def dedupNonBlank (l : List Str) : List Str :=
  firstOccurrences (l.filter nonBlank)

/-- Synthesis dictionary built by `_synthesize_results` (lines 400-424),
restricted to the decision fields the specification's claims are about
(the assembled prose fields `executive_summary`, `investment_thesis`,
`final_response` and the pass-through `sections` are not modelled). -/
structure Synthesis where
  outlook : Direction
  trading_action : TradeAction
  position_sizing : PositionSize
  bullish_factors : List Str
  bearish_factors : List Str
  critical_factors : List Str
  key_risks : List Str
  risk_mitigations : List Str
  avg_conf : Rat

/-- `_synthesize_results` (lines 289-426), decision fields. -/
def synthesize (mr tr sr : ResultDict) : Synthesis :=
  let final_outlook :=
    majority_outlook [macro_direction mr, technical_direction tr, sentiment_direction sr]
  { outlook := final_outlook
    trading_action := action_for final_outlook
    position_sizing := position_sizing_of (avg_confidence mr tr sr)
    bullish_factors := collect_list [mr.bullish_factors, tr.bullish_factors, sr.bullish_factors]
    bearish_factors := collect_list [mr.bearish_factors, tr.bearish_factors, sr.bearish_factors]
    critical_factors := collect_list [mr.critical_factors, tr.critical_factors, sr.critical_factors]
    key_risks := collect_list [mr.key_risks, tr.key_risks, sr.key_risks]
    risk_mitigations := collect_list [mr.risk_mitigations, tr.risk_mitigations, sr.risk_mitigations]
    avg_conf := avg_confidence mr tr sr }

/-- Per-specialist block of the persisted `Analysis`
(`_create_analysis_entity`, lines 440-465), restricted to the fields the
claims mention. `confidence` is `_safe_get(result, "confidence", 0.5)`
(no `or`-coercion on this path). -/
structure AgentAnalysis where
  summary : Str
  confidence : Rat

/-- Confidence as used by `_create_analysis_entity` (lines 443, 452, 461,
468-472): `_safe_get(result, "confidence", 0.5)`. -/
def entity_conf (r : ResultDict) : Rat := r.confidence.getD (1/2)

/-- `_get_risk_level` (synthesis_agent.py lines 502-513). -/
def get_risk_level (risk_score : Rat) : RiskLevel :=
  if risk_score < 1/5 then .very_low
  else if risk_score < 2/5 then .low
  else if risk_score < 3/5 then .medium
  else if risk_score < 4/5 then .high
  else .very_high

/-- Persisted `Analysis` entity (`_create_analysis_entity`, lines 478-500),
restricted to the fields the claims mention. -/
structure Analysis where
  outlook : Direction
  overall_confidence : Rat
  risk_level : RiskLevel
  risk_score : Rat
  trading_action : TradeAction
  position_sizing : PositionSize
  bullish_factors : List Str
  bearish_factors : List Str
  critical_factors : List Str
  key_risks : List Str
  risk_mitigations : List Str
  macro_analysis : AgentAnalysis
  technical_analysis : AgentAnalysis
  sentiment_analysis : AgentAnalysis

/-- `_create_analysis_entity` (lines 428-500): per-agent blocks, overall
confidence = mean of the three `_safe_get(_, "confidence", 0.5)` values,
`risk_score = 1 - overall_confidence`, risk level bucketed by
`_get_risk_level`, decision fields copied from the synthesis dict. -/
def create_analysis_entity (synth : Synthesis) (mr tr sr : ResultDict) : Analysis :=
  let overall_confidence := (entity_conf mr + entity_conf tr + entity_conf sr) / 3
  let risk_score := 1 - overall_confidence
  { outlook := synth.outlook
    overall_confidence := overall_confidence
    risk_level := get_risk_level risk_score
    risk_score := risk_score
    trading_action := synth.trading_action
    position_sizing := synth.position_sizing
    bullish_factors := synth.bullish_factors
    bearish_factors := synth.bearish_factors
    critical_factors := synth.critical_factors
    key_risks := synth.key_risks
    risk_mitigations := synth.risk_mitigations
    macro_analysis := ⟨mr.summary.getD [], entity_conf mr⟩
    technical_analysis := ⟨tr.summary.getD [], entity_conf tr⟩
    sentiment_analysis := ⟨sr.summary.getD [], entity_conf sr⟩ }

/-- Fixed degraded summary substituted for a failed macro specialist (line 186). -/
def macro_error_summary : Str := "Error in macro analysis".toList

/-- Fixed degraded summary substituted for a failed technical specialist (line 190). -/
def technical_error_summary : Str := "Error in technical analysis".toList

/-- Fixed degraded summary substituted for a failed sentiment specialist (line 194). -/
def sentiment_error_summary : Str := "Error in sentiment analysis".toList

/-- Error conversion in `SynthesisAgent.analyze` (lines 184-194): a specialist
outcome that is an exception is replaced in place by the dict
`{"error": str(e), "summary": "Error in <x> analysis"}` (no confidence key);
a successful outcome passes through unchanged. -/
def resolve_outcome (err_summary : Str) (outcome : Except Str ResultDict) : ResultDict :=
  match outcome with
  | .ok r => r
  | .error e => { emptyResult with error := some e, summary := some err_summary }

/-- Result-merging core of `SynthesisAgent.analyze` (lines 178-242): the three
specialist outcomes (result or exception) are resolved, synthesized and
turned into the `Analysis` entity.  The surrounding translation / RAG /
speech / conversation-memory side effects do not influence these fields. -/
def analyze_core (m_res t_res s_res : Except Str ResultDict) : Analysis :=
  let mr := resolve_outcome macro_error_summary m_res
  let tr := resolve_outcome technical_error_summary t_res
  let sr := resolve_outcome sentiment_error_summary s_res
  create_analysis_entity (synthesize mr tr sr) mr tr sr

/-- Sample successful macro specialist result used in concrete instances. -/
def sampleMacro : ResultDict :=
  { emptyResult with
    summary := some "Fed easing supports risk assets".toList
    confidence := some (4/5) }

/-- Sample successful technical specialist result used in concrete instances. -/
def sampleTechnical : ResultDict :=
  { emptyResult with
    summary := some "Breakout confirmed on strong volume".toList
    confidence := some (3/5) }

/-! ## Cache-key derivation (analysis_service.py, `_generate_cache_key`) -/

namespace CacheKey

/-- Analysis request as seen by `AnalysisService._generate_cache_key`
(lines 114-139): the positional `query`, `asset_symbol` and optional
`timeframe` (its enum value string), plus the optional context entries the
key derivation reads (`session_id`, `conversation_id`, `asset_symbol`).
`extra` models every other context entry (days, language, ...), which the
derivation never reads. -/
structure Request where
  query : Str
  asset_symbol : Str
  timeframe : Option Str
  session_id : Option Str
  conversation_id : Option Str
  ctx_asset : Option Str
  extra : List (Str × Str)

/-- Segments `":" ++ q` for each further part, as contributed by Python's
`":".join(key_parts)` after the first part. -/
def colonSegs : List Str → Str
  | [] => []
  | q :: qs => ':' :: q ++ colonSegs qs

/-- Python `":".join(parts)`. -/
def joinColon : List Str → Str
  | [] => []
  | p :: ps => p ++ colonSegs ps

/-- The `key_parts` list of `_generate_cache_key` (lines 122-136): query and
asset symbol, then the timeframe value if a timeframe was given, then
tagged context entries — `session:{id}`, `conversation:{id}`, and
`ctx_asset:{symbol}` when the context carries an asset symbol different
from the request's. -/
def key_parts (r : Request) : List Str :=
  [r.query, r.asset_symbol]
    ++ (match r.timeframe with
        | some tf => [tf]
        | none => [])
    ++ (match r.session_id with
        | some s => ["session:".toList ++ s]
        | none => [])
    ++ (match r.conversation_id with
        | some c => ["conversation:".toList ++ c]
        | none => [])
    ++ (match r.ctx_asset with
        | some a => if a = r.asset_symbol then [] else ["ctx_asset:".toList ++ a]
        | none => [])

/-- `_generate_cache_key` (lines 114-139) up to the final `hashlib.md5`
hex digest: the fingerprint string `":".join(key_parts)`.  The md5 step is
a fixed deterministic function of this string, so two requests get the
same digest exactly when their fingerprint strings are handled alike;
distinctness statements below are about the fingerprint string. -/
def generate_cache_key (r : Request) : Str := joinColon (key_parts r)

/-- Effective context-asset contribution: the context's asset symbol when
present and different from the request's, as singled out by line 135. -/
def effCtx (r : Request) : Option Str :=
  match r.ctx_asset with
  | some a => if a = r.asset_symbol then none else some a
  | none => none

/-- The fingerprint-contributing fields named by the specification:
`(query, asset_symbol, timeframe?, session_id?, conversation_id?,
context.asset_symbol-if-different)`. -/
def fingerprint (r : Request) : Str × Str × Option Str × Option Str × Option Str × Option Str :=
  (r.query, r.asset_symbol, r.timeframe, r.session_id, r.conversation_id, effCtx r)

/-- Tagged optional segment, the shape every optional key part takes inside
the joined string. -/
def tagSeg (tag : Str) : Option Str → Str
  | some v => ':' :: (tag ++ v)
  | none => []

/-- Tag of the session key part. -/
def sTag : Str := "session:".toList

/-- Tag of the conversation key part. -/
def cTag : Str := "conversation:".toList

/-- Tag of the context-asset key part. -/
def xTag : Str := "ctx_asset:".toList

/-- Sample request used in the concrete cache-key instances. -/
def sampleRequest : Request :=
  { query := "should I buy".toList
    asset_symbol := "BTC".toList
    timeframe := some "1d".toList
    session_id := some "s-1".toList
    conversation_id := some "c-1".toList
    ctx_asset := some "BTC".toList
    extra := [("language".toList, "en".toList)] }

end CacheKey

/-! ## Conversation manager (conversation_manager.py) -/

namespace Conv

/-- Message roles (`domain.entities.conversation.MessageRole`). -/
inductive MessageRole where
  | user
  | assistant
  | system
deriving DecidableEq

/-- Modelled from the spec: the `ConversationMessage` entity is not under
src/; §3 of the specification defines it as
`{id, role, content, timestamp, metadata}`, append-only. -/
structure ConversationMessage where
  id : Str
  role : MessageRole
  content : Str
  timestamp : Nat
  metadata : List (Str × Str)
deriving DecidableEq

/-- Modelled from the spec: the `ConversationContext` entity is not under
src/; §3 defines it as `{conversation_id, user_id, asset_symbol, messages,
previous_outlook?, previous_confidence?, previous_action?, last_updated}`. -/
structure ConversationContext where
  conversation_id : Str
  user_id : Str
  asset_symbol : Str
  messages : List ConversationMessage
  created_at : Nat
  last_updated : Nat
  previous_outlook : Option Str
  previous_confidence : Option Rat
  previous_action : Option Str

/-- Modelled from the spec: `ConversationContext.add_message` (called by
`ConversationManager.add_message`, line 101) is not under src/; §4.3 and §3
define message addition as appending the new message to the ordered,
append-only `messages` list. -/
def ConversationContext.add_message (conv : ConversationContext)
    (msg : ConversationMessage) : ConversationContext :=
  { conv with messages := conv.messages ++ [msg] }

/-- Modelled from the spec: the `ConversationSession` entity is not under
src/; §3 defines it as `{session_id, user_id, created_at, last_accessed,
conversations: map<conversation_id, ConversationContext>}`.  The map is
modelled as an association list. -/
structure ConversationSession where
  session_id : Str
  user_id : Str
  created_at : Nat
  last_accessed : Nat
  conversations : List (Str × ConversationContext)

/-- Session store: the `_sessions` map of conversation_manager.py (line 21).
The Redis write-through copy always mirrors it, so presence/absence of a
session is decided by this one map. -/
abbrev Store := List (Str × ConversationSession)

/-- Association-list lookup (Python `d[k]` / `k in d`). -/
def lookupA {β : Type} (k : Str) : List (Str × β) → Option β
  | [] => none
  | (k', v) :: rest => if k' = k then some v else lookupA k rest

/-- Association-list in-place value replacement (Python's mutation of the
object stored under an existing key). -/
def replaceA {β : Type} (k : Str) (v : β) : List (Str × β) → List (Str × β)
  | [] => []
  | (k', v') :: rest => if k' = k then (k', v) :: rest else (k', v') :: replaceA k v rest

/-- `ConversationManager.get_session` (lines 47-60): presence in the store. -/
def get_session (store : Store) (session_id : Str) : Option ConversationSession :=
  lookupA session_id store

/-- `ConversationManager.get_conversation` (lines 109-115): `None` when the
session is absent or the conversation id is not in the session. -/
def get_conversation (store : Store) (session_id conversation_id : Str) :
    Option ConversationContext :=
  match get_session store session_id with
  | none => none
  | some sess => lookupA conversation_id sess.conversations

/-- `ConversationManager.add_message` (lines 84-107): raises
`ValueError("Session ... not found")` when the session is absent,
`ValueError("Conversation ... not found in session")` when the conversation
is absent, else appends the message built from the arguments (its uuid
modelled by `fresh_id`, `datetime.now()` by `now`) and returns it together
with the updated store. -/
def add_message (store : Store) (session_id conversation_id : Str)
    (role : MessageRole) (content : Str) (metadata : List (Str × Str))
    (fresh_id : Str) (now : Nat) :
    Except Str (ConversationMessage × Store) :=
  match get_session store session_id with
  | none => .error ("Session ".toList ++ session_id ++ " not found".toList)
  | some sess =>
    match lookupA conversation_id sess.conversations with
    | none =>
        .error ("Conversation ".toList ++ conversation_id ++ " not found in session".toList)
    | some conv =>
        let msg : ConversationMessage := ⟨fresh_id, role, content, now, metadata⟩
        let sess' := { sess with
          conversations := replaceA conversation_id (conv.add_message msg) sess.conversations }
        .ok (msg, replaceA session_id sess' store)

/-- Python list slice `xs[-n:]` for a non-negative `n`: the whole list when
`n = 0` (since `-0 == 0`), otherwise the last `n` elements. -/
def pySliceLast {α : Type} (n : Nat) (xs : List α) : List α :=
  if n = 0 then xs else xs.drop (xs.length - n)

/-- `ConversationManager.get_conversation_history` (lines 117-129): empty
list when the session or conversation is absent, otherwise
`conversation.messages[-limit:]` (the call-site default for `limit` is 50). -/
def get_conversation_history (store : Store) (session_id conversation_id : Str)
    (limit : Nat) : List ConversationMessage :=
  match get_conversation store session_id conversation_id with
  | none => []
  | some conv => pySliceLast limit conv.messages

/-- `ConversationManager.update_conversation_context` (lines 131-153): raises
`ValueError("Conversation ... not found")` when `get_conversation` finds
nothing (session or conversation absent); otherwise overwrites the three
`previous_*` fields, sets `last_updated` to `datetime.now()` (modelled by
`now`) and persists the session. -/
def update_conversation_context (store : Store) (session_id conversation_id : Str)
    (outlook : Str) (confidence : Rat) (action : Str) (now : Nat) :
    Except Str Store :=
  match get_session store session_id with
  | none => .error ("Conversation ".toList ++ conversation_id ++ " not found".toList)
  | some sess =>
    match lookupA conversation_id sess.conversations with
    | none => .error ("Conversation ".toList ++ conversation_id ++ " not found".toList)
    | some conv =>
        let conv' := { conv with
          previous_outlook := some outlook
          previous_confidence := some confidence
          previous_action := some action
          last_updated := now }
        let sess' := { sess with
          conversations := replaceA conversation_id conv' sess.conversations }
        .ok (replaceA session_id sess' store)

/-- Sample stored message used in concrete instances. -/
def sampleMessage : ConversationMessage :=
  ⟨"m1".toList, .user, "hello".toList, 1, []⟩

/-- Sample conversation holding one message. -/
def sampleContext : ConversationContext :=
  ⟨"c".toList, "u".toList, "BTC".toList, [sampleMessage], 0, 1, none, none, none⟩

/-- Sample session holding `sampleContext`. -/
def sampleSession : ConversationSession :=
  ⟨"s".toList, "u".toList, 0, 0, [("c".toList, sampleContext)]⟩

/-- Sample store holding `sampleSession`. -/
def sampleStore : Store := [("s".toList, sampleSession)]

end Conv

end MarketSense

namespace MarketSense

/-! ## Theorems -/

/-- C3: for every triple of per-specialist directions, the synthesized
outlook is the majority direction, a bullish/bearish tie (including 1-1-1
and 0-0-0) resolving to neutral; the trading action is exactly
bullish→buy, bearish→sell, neutral→hold; `synthesize` derives its outlook
by this vote over the three classified directions and its action from that
outlook; in particular (bullish, bullish, bearish) gives (bullish, buy)
and (bullish, bearish, neutral) gives (neutral, hold). -/
theorem claim_C3_majority_vote_and_action :
    (∀ d1 d2 d3 : Direction,
      (List.count .bullish [d1, d2, d3] > List.count .bearish [d1, d2, d3] →
        majority_outlook [d1, d2, d3] = .bullish) ∧
      (List.count .bearish [d1, d2, d3] > List.count .bullish [d1, d2, d3] →
        majority_outlook [d1, d2, d3] = .bearish) ∧
      (List.count .bullish [d1, d2, d3] = List.count .bearish [d1, d2, d3] →
        majority_outlook [d1, d2, d3] = .neutral)) ∧
    action_for .bullish = .buy ∧ action_for .bearish = .sell ∧ action_for .neutral = .hold ∧
    (∀ mr tr sr : ResultDict,
      (synthesize mr tr sr).outlook =
        majority_outlook [macro_direction mr, technical_direction tr, sentiment_direction sr] ∧
      (synthesize mr tr sr).trading_action = action_for ((synthesize mr tr sr).outlook)) ∧
    majority_outlook [.bullish, .bullish, .bearish] = .bullish ∧
    action_for (majority_outlook [.bullish, .bullish, .bearish]) = .buy ∧
    majority_outlook [.bullish, .bearish, .neutral] = .neutral ∧
    action_for (majority_outlook [.bullish, .bearish, .neutral]) = .hold := by
  refine ⟨by decide, by decide, by decide, by decide, ?_, by decide, by decide, by decide, by decide⟩
  intro mr tr sr
  constructor <;> simp [synthesize]

/-- C3 witness: the majority-vote components instantiated at the two
triples named in the claim. -/
theorem claim_C3_witness :
    majority_outlook [.bullish, .bullish, .bearish] = .bullish ∧
    majority_outlook [.bullish, .bearish, .neutral] = .neutral :=
  ⟨(claim_C3_majority_vote_and_action.1 .bullish .bullish .bearish).1 (by decide),
   (claim_C3_majority_vote_and_action.1 .bullish .bearish .neutral).2.2 (by decide)⟩

/-- C5: position sizing is determined by the arithmetic mean of the three
specialist confidences, thresholds inclusive at the lower bound:
mean ≥ 0.75 → large, 0.60 ≤ mean < 0.75 → medium, mean < 0.60 → small;
`synthesize` sizes positions exactly this way, and the boundary values
0.75 and 0.60 give large and medium respectively. -/
theorem claim_C5_position_sizing :
    (∀ c1 c2 c3 : Rat,
      ((c1 + c2 + c3) / 3 ≥ 3/4 → position_sizing_of ((c1 + c2 + c3) / 3) = .large) ∧
      (3/5 ≤ (c1 + c2 + c3) / 3 → (c1 + c2 + c3) / 3 < 3/4 →
        position_sizing_of ((c1 + c2 + c3) / 3) = .medium) ∧
      ((c1 + c2 + c3) / 3 < 3/5 → position_sizing_of ((c1 + c2 + c3) / 3) = .small)) ∧
    (∀ mr tr sr : ResultDict,
      (synthesize mr tr sr).position_sizing =
        position_sizing_of ((synth_conf mr + synth_conf tr + synth_conf sr) / 3)) ∧
    position_sizing_of (3/4) = .large ∧ position_sizing_of (3/5) = .medium := by
  refine ⟨?_, ?_, by norm_num [position_sizing_of], by norm_num [position_sizing_of]⟩
  · intro c1 c2 c3
    refine ⟨fun h => ?_, fun h1 h2 => ?_, fun h => ?_⟩
    · rw [position_sizing_of, if_pos h]
    · rw [position_sizing_of, if_neg (not_le.mpr h2), if_pos h1]
    · rw [position_sizing_of, if_neg (not_le.mpr (h.trans (by norm_num))),
        if_neg (not_le.mpr h)]
  · intro mr tr sr
    simp [synthesize, avg_confidence]

/-- C5 witness: the threshold ladder instantiated — mean exactly 0.75 gives
large, mean exactly 0.60 gives medium, mean 0.5 gives small. -/
theorem claim_C5_witness :
    position_sizing_of ((3/4 + 3/4 + 3/4 : Rat) / 3) = .large ∧
    position_sizing_of ((3/5 + 3/5 + 3/5 : Rat) / 3) = .medium ∧
    position_sizing_of ((1/2 + 1/2 + 1/2 : Rat) / 3) = .small :=
  ⟨(claim_C5_position_sizing.1 (3/4) (3/4) (3/4)).1 (by norm_num),
   ((claim_C5_position_sizing.1 (3/5) (3/5) (3/5)).2.1 (by norm_num) (by norm_num)),
   ((claim_C5_position_sizing.1 (1/2) (1/2) (1/2)).2.2 (by norm_num))⟩

/-- C7: the persisted Analysis has risk_score = 1 − overall confidence
(the mean of the three specialist confidences), and risk_level bucketed by
half-open bands risk_score < 0.2 → very_low, < 0.4 → low, < 0.6 → medium,
< 0.8 → high, else very_high; in particular 0.19 → very_low, 0.20 → low,
0.59 → medium, 0.60 → high, 0.81 → very_high. -/
theorem claim_C7_risk_score_and_level :
    (∀ mr tr sr : ResultDict,
      (create_analysis_entity (synthesize mr tr sr) mr tr sr).overall_confidence =
        (entity_conf mr + entity_conf tr + entity_conf sr) / 3 ∧
      (create_analysis_entity (synthesize mr tr sr) mr tr sr).risk_score =
        1 - (create_analysis_entity (synthesize mr tr sr) mr tr sr).overall_confidence ∧
      (create_analysis_entity (synthesize mr tr sr) mr tr sr).risk_level =
        get_risk_level ((create_analysis_entity (synthesize mr tr sr) mr tr sr).risk_score)) ∧
    (∀ rs : Rat,
      (rs < 1/5 → get_risk_level rs = .very_low) ∧
      (1/5 ≤ rs → rs < 2/5 → get_risk_level rs = .low) ∧
      (2/5 ≤ rs → rs < 3/5 → get_risk_level rs = .medium) ∧
      (3/5 ≤ rs → rs < 4/5 → get_risk_level rs = .high) ∧
      (4/5 ≤ rs → get_risk_level rs = .very_high)) ∧
    get_risk_level (19/100) = .very_low ∧
    get_risk_level (1/5) = .low ∧
    get_risk_level (59/100) = .medium ∧
    get_risk_level (3/5) = .high ∧
    get_risk_level (81/100) = .very_high := by
  refine ⟨?_, ?_, by norm_num [get_risk_level], by norm_num [get_risk_level],
    by norm_num [get_risk_level], by norm_num [get_risk_level], by norm_num [get_risk_level]⟩
  · intro mr tr sr
    refine ⟨rfl, rfl, rfl⟩
  · intro rs
    refine ⟨fun h1 => ?_, fun h1 h2 => ?_, fun h1 h2 => ?_, fun h1 h2 => ?_, fun h1 => ?_⟩
    · rw [get_risk_level, if_pos h1]
    · rw [get_risk_level, if_neg (not_lt.mpr h1), if_pos h2]
    · rw [get_risk_level, if_neg (not_lt.mpr (le_trans (by norm_num) h1)),
        if_neg (not_lt.mpr h1), if_pos h2]
    · rw [get_risk_level, if_neg (not_lt.mpr (le_trans (by norm_num) h1)),
        if_neg (not_lt.mpr (le_trans (by norm_num) h1)), if_neg (not_lt.mpr h1), if_pos h2]
    · rw [get_risk_level, if_neg (not_lt.mpr (le_trans (by norm_num) h1)),
        if_neg (not_lt.mpr (le_trans (by norm_num) h1)),
        if_neg (not_lt.mpr (le_trans (by norm_num) h1)), if_neg (not_lt.mpr h1)]

/-- C7 witness: the bucketing ladder instantiated at the five example
risk scores of the claim. -/
theorem claim_C7_witness :
    get_risk_level (19/100) = .very_low ∧ get_risk_level (1/5) = .low ∧
    get_risk_level (59/100) = .medium ∧ get_risk_level (3/5) = .high ∧
    get_risk_level (81/100) = .very_high :=
  ⟨(claim_C7_risk_score_and_level.2.1 (19/100)).1 (by norm_num),
   (claim_C7_risk_score_and_level.2.1 (1/5)).2.1 (by norm_num) (by norm_num),
   (claim_C7_risk_score_and_level.2.1 (59/100)).2.2.1 (by norm_num) (by norm_num),
   (claim_C7_risk_score_and_level.2.1 (3/5)).2.2.2.1 (by norm_num) (by norm_num),
   (claim_C7_risk_score_and_level.2.1 (81/100)).2.2.2.2 (by norm_num)⟩

/-- C4: each specialist's direction classifies the explicit directional
field (outlook / trend / sentiment_label) when present, otherwise the
summary; a text classifies bullish if any bullish keyword occurs in its
lowercase form, else bearish if any bearish keyword occurs, else neutral;
the bullish check runs first, so "up down" (matching both sets)
classifies bullish. -/
theorem claim_C4_direction_classification :
    (∀ r : ResultDict, ∀ o : Str, r.outlook = some o →
      macro_direction r = classify_text_to_direction o) ∧
    (∀ r : ResultDict, r.outlook = none →
      macro_direction r = classify_text_to_direction (r.summary.getD [])) ∧
    (∀ r : ResultDict, ∀ o : Str, r.trend = some o →
      technical_direction r = classify_text_to_direction o) ∧
    (∀ r : ResultDict, r.trend = none →
      technical_direction r = classify_text_to_direction (r.summary.getD [])) ∧
    (∀ r : ResultDict, ∀ o : Str, r.sentiment_label = some o →
      sentiment_direction r = classify_text_to_direction o) ∧
    (∀ r : ResultDict, r.sentiment_label = none →
      sentiment_direction r = classify_text_to_direction (r.summary.getD [])) ∧
    (∀ text : Str, (∃ k ∈ bullishKeywords, k <:+: lowerStr text) →
      classify_text_to_direction text = .bullish) ∧
    (∀ text : Str, (∀ k ∈ bullishKeywords, ¬ k <:+: lowerStr text) →
      (∃ k ∈ bearishKeywords, k <:+: lowerStr text) →
      classify_text_to_direction text = .bearish) ∧
    (∀ text : Str, (∀ k ∈ bullishKeywords, ¬ k <:+: lowerStr text) →
      (∀ k ∈ bearishKeywords, ¬ k <:+: lowerStr text) →
      classify_text_to_direction text = .neutral) ∧
    (∃ k ∈ bullishKeywords, k <:+: lowerStr ("up down".toList)) ∧
    (∃ k ∈ bearishKeywords, k <:+: lowerStr ("up down".toList)) ∧
    classify_text_to_direction ("up down".toList) = .bullish := by
  refine ⟨?_, ?_, ?_, ?_, ?_, ?_, ?_, ?_, ?_, by decide, by decide, by decide⟩
  · intro r o h; simp [macro_direction, h]
  · intro r h; simp [macro_direction, h]
  · intro r o h; simp [technical_direction, h]
  · intro r h; simp [technical_direction, h]
  · intro r o h; simp [sentiment_direction, h]
  · intro r h; simp [sentiment_direction, h]
  · intro text h
    rcases h with ⟨k, hk, hinf⟩
    by_cases ht : text = []
    · exfalso
      subst ht
      have hk0 : k = [] := by simpa [lowerStr] using hinf
      subst hk0
      revert hk; decide
    · have hb : bullishKeywords.any (fun k => decide (k <:+: lowerStr text)) = true :=
        List.any_eq_true.mpr ⟨k, hk, by simpa using hinf⟩
      simp [classify_text_to_direction, ht, hb]
  · intro text hnb h
    rcases h with ⟨k, hk, hinf⟩
    by_cases ht : text = []
    · exfalso
      subst ht
      have hk0 : k = [] := by simpa [lowerStr] using hinf
      subst hk0
      revert hk; decide
    · have hb : bullishKeywords.any (fun k => decide (k <:+: lowerStr text)) = false := by
        simp only [List.any_eq_false, decide_eq_true_eq]
        exact hnb
      have hbear : bearishKeywords.any (fun k => decide (k <:+: lowerStr text)) = true :=
        List.any_eq_true.mpr ⟨k, hk, by simpa using hinf⟩
      simp [classify_text_to_direction, ht, hb, hbear]
  · intro text hnb hnbear
    by_cases ht : text = []
    · simp [classify_text_to_direction, ht]
    · have hb : bullishKeywords.any (fun k => decide (k <:+: lowerStr text)) = false := by
        simp only [List.any_eq_false, decide_eq_true_eq]
        exact hnb
      have hbear : bearishKeywords.any (fun k => decide (k <:+: lowerStr text)) = false := by
        simp only [List.any_eq_false, decide_eq_true_eq]
        exact hnbear
      simp [classify_text_to_direction, ht, hb, hbear]

/-- C4 witness: the keyword guards instantiated — "rally ahead" is bullish,
"heading lower" is bearish, "sideways chop" is neutral. -/
theorem claim_C4_witness :
    classify_text_to_direction ("rally ahead".toList) = .bullish ∧
    classify_text_to_direction ("heading lower".toList) = .bearish ∧
    classify_text_to_direction ("sideways chop".toList) = .neutral :=
  ⟨claim_C4_direction_classification.2.2.2.2.2.2.1 ("rally ahead".toList) (by decide),
   claim_C4_direction_classification.2.2.2.2.2.2.2.1 ("heading lower".toList)
     (by decide) (by decide),
   claim_C4_direction_classification.2.2.2.2.2.2.2.2.1 ("sideways chop".toList)
     (by decide) (by decide)⟩

/-- C9: a specialist result lacking a confidence value — including the
error placeholder, which carries only error and summary — is given the
default confidence 0.5 (not 0.0) both in the synthesis step (mean and
position sizing) and in the persisted Analysis (per-agent confidence and
overall mean). -/
theorem claim_C9_default_confidence :
    (∀ r : ResultDict, r.confidence = none →
      synth_conf r = 1/2 ∧ entity_conf r = 1/2) ∧
    (∀ es e : Str, (resolve_outcome es (.error e)).confidence = none ∧
      (resolve_outcome es (.error e)).error = some e ∧
      (resolve_outcome es (.error e)).summary = some es) ∧
    (∀ mr tr sr : ResultDict, sr.confidence = none →
      avg_confidence mr tr sr = (synth_conf mr + synth_conf tr + 1/2) / 3 ∧
      (synthesize mr tr sr).position_sizing =
        position_sizing_of ((synth_conf mr + synth_conf tr + 1/2) / 3) ∧
      (create_analysis_entity (synthesize mr tr sr) mr tr sr).overall_confidence =
        (entity_conf mr + entity_conf tr + 1/2) / 3 ∧
      (create_analysis_entity (synthesize mr tr sr) mr tr sr).sentiment_analysis.confidence
        = 1/2) ∧
    ((1 : Rat)/2 ≠ 0) := by
  refine ⟨?_, ?_, ?_, by norm_num⟩
  · intro r h
    exact ⟨by simp [synth_conf, h], by simp [entity_conf, h]⟩
  · intro es e
    refine ⟨rfl, rfl, rfl⟩
  · intro mr tr sr h
    have hs : synth_conf sr = 1/2 := by simp [synth_conf, h]
    have he : entity_conf sr = 1/2 := by simp [entity_conf, h]
    refine ⟨by rw [avg_confidence, hs], ?_, ?_, ?_⟩
    · simp [synthesize, avg_confidence, hs]
    · simp [create_analysis_entity, he]
    · simp [create_analysis_entity, he]

/-- C9 witness: the default-confidence equations instantiated at the
degraded sentiment placeholder combined with the two sample results. -/
theorem claim_C9_witness :
    avg_confidence sampleMacro sampleTechnical
        (resolve_outcome sentiment_error_summary (.error "boom".toList)) =
      (synth_conf sampleMacro + synth_conf sampleTechnical + 1/2) / 3 ∧
    synth_conf (resolve_outcome sentiment_error_summary (.error "boom".toList)) = 1/2 := by
  have hc : (resolve_outcome sentiment_error_summary (.error "boom".toList)).confidence = none :=
    (claim_C9_default_confidence.2.1 sentiment_error_summary "boom".toList).1
  exact ⟨(claim_C9_default_confidence.2.2.1 sampleMacro sampleTechnical _ hc).1,
    ((claim_C9_default_confidence.1 _ hc).1)⟩

/-- C1 counterexample: with macro confidence 0.8, technical confidence 0.6
and a failing sentiment specialist, the degraded sentiment result does not
carry confidence 0.0 — the Analysis records 0.5 for it — and the overall
confidence is not the mean including a zero. -/
theorem claim_C1_counterexample :
    (analyze_core (.ok sampleMacro) (.ok sampleTechnical)
        (.error "boom".toList)).sentiment_analysis.confidence ≠ 0 ∧
    (analyze_core (.ok sampleMacro) (.ok sampleTechnical)
        (.error "boom".toList)).overall_confidence ≠ (4/5 + 3/5 + 0) / 3 := by
  constructor <;>
    norm_num [analyze_core, resolve_outcome, create_analysis_entity, entity_conf,
      sampleMacro, sampleTechnical, emptyResult]

/-- C1 (amended): every failed specialist — macro, technical or sentiment —
is converted in place to a degraded result whose error field carries the
exception text and whose summary is that specialist's fixed error
description, with no confidence entry; the other two analyses and the
overall request are not aborted (their summaries and confidences flow into
the returned Analysis unchanged), and the overall confidence is the mean
of the three confidences with the default 0.5 — not 0.0 — substituted for
the failed specialist.  Stated for each of the three failure positions
(synthesis_agent.py lines 184-186, 188-190, 192-194), with the two
surviving results arbitrary. -/
theorem claim_C1_degraded_specialist (mr tr : ResultDict) (e : Str) (cm ct : Rat)
    (hm : mr.confidence = some cm) (ht : tr.confidence = some ct) :
    (∀ es : Str,
      (resolve_outcome es (.error e)).error = some e ∧
      (resolve_outcome es (.error e)).summary = some es ∧
      (resolve_outcome es (.error e)).confidence = none) ∧
    ((analyze_core (.ok mr) (.ok tr) (.error e)).overall_confidence = (cm + ct + 1/2) / 3 ∧
     (analyze_core (.ok mr) (.ok tr) (.error e)).sentiment_analysis.confidence = 1/2 ∧
     (analyze_core (.ok mr) (.ok tr) (.error e)).sentiment_analysis.summary
       = sentiment_error_summary ∧
     (analyze_core (.ok mr) (.ok tr) (.error e)).macro_analysis.summary
       = mr.summary.getD [] ∧
     (analyze_core (.ok mr) (.ok tr) (.error e)).macro_analysis.confidence = cm ∧
     (analyze_core (.ok mr) (.ok tr) (.error e)).technical_analysis.summary
       = tr.summary.getD [] ∧
     (analyze_core (.ok mr) (.ok tr) (.error e)).technical_analysis.confidence = ct) ∧
    ((analyze_core (.error e) (.ok mr) (.ok tr)).overall_confidence = (1/2 + cm + ct) / 3 ∧
     (analyze_core (.error e) (.ok mr) (.ok tr)).macro_analysis.confidence = 1/2 ∧
     (analyze_core (.error e) (.ok mr) (.ok tr)).macro_analysis.summary
       = macro_error_summary ∧
     (analyze_core (.error e) (.ok mr) (.ok tr)).technical_analysis.summary
       = mr.summary.getD [] ∧
     (analyze_core (.error e) (.ok mr) (.ok tr)).technical_analysis.confidence = cm ∧
     (analyze_core (.error e) (.ok mr) (.ok tr)).sentiment_analysis.summary
       = tr.summary.getD [] ∧
     (analyze_core (.error e) (.ok mr) (.ok tr)).sentiment_analysis.confidence = ct) ∧
    ((analyze_core (.ok mr) (.error e) (.ok tr)).overall_confidence = (cm + 1/2 + ct) / 3 ∧
     (analyze_core (.ok mr) (.error e) (.ok tr)).technical_analysis.confidence = 1/2 ∧
     (analyze_core (.ok mr) (.error e) (.ok tr)).technical_analysis.summary
       = technical_error_summary ∧
     (analyze_core (.ok mr) (.error e) (.ok tr)).macro_analysis.summary
       = mr.summary.getD [] ∧
     (analyze_core (.ok mr) (.error e) (.ok tr)).macro_analysis.confidence = cm ∧
     (analyze_core (.ok mr) (.error e) (.ok tr)).sentiment_analysis.summary
       = tr.summary.getD [] ∧
     (analyze_core (.ok mr) (.error e) (.ok tr)).sentiment_analysis.confidence = ct) := by
  refine ⟨fun es => ⟨rfl, rfl, rfl⟩, ?_, ?_, ?_⟩ <;>
    refine ⟨?_, ?_, ?_, ?_, ?_, ?_, ?_⟩ <;>
      simp [analyze_core, resolve_outcome, create_analysis_entity, entity_conf,
        emptyResult, hm, ht]

/-- C1 witness: the amended claim instantiated at the sample results and
the error text "boom", exercising all three failure positions. -/
theorem claim_C1_witness :
    (analyze_core (.ok sampleMacro) (.ok sampleTechnical)
        (.error "boom".toList)).overall_confidence = (4/5 + 3/5 + 1/2) / 3 ∧
    (analyze_core (.ok sampleMacro) (.ok sampleTechnical)
        (.error "boom".toList)).sentiment_analysis.confidence = 1/2 ∧
    (analyze_core (.error "boom".toList) (.ok sampleMacro)
        (.ok sampleTechnical)).overall_confidence = (1/2 + 4/5 + 3/5) / 3 ∧
    (analyze_core (.error "boom".toList) (.ok sampleMacro)
        (.ok sampleTechnical)).macro_analysis.summary = macro_error_summary ∧
    (analyze_core (.ok sampleMacro) (.error "boom".toList)
        (.ok sampleTechnical)).technical_analysis.summary = technical_error_summary ∧
    (analyze_core (.ok sampleMacro) (.error "boom".toList)
        (.ok sampleTechnical)).technical_analysis.confidence = 1/2 ∧
    (resolve_outcome sentiment_error_summary (.error "boom".toList)).error
      = some "boom".toList := by
  have h := claim_C1_degraded_specialist sampleMacro sampleTechnical "boom".toList
    (4/5) (3/5) rfl rfl
  exact ⟨h.2.1.1, h.2.1.2.1, h.2.2.1.1, h.2.2.1.2.2.1, h.2.2.2.2.2.1, h.2.2.2.2.1,
    (h.1 sentiment_error_summary).1⟩

/-- Combining the accumulator-membership filter with one further
first-occurrence step. -/
lemma step_pred_append (acc : List Str) (x a : Str) :
    (nonBlank a && decide (a ∉ acc ++ [x]))
      = (decide (a ≠ x) && (nonBlank a && decide (a ∉ acc))) := by
  by_cases h1 : nonBlank a = true <;> by_cases h2 : a ∈ acc <;> by_cases h3 : a = x <;>
    simp [h1, h2, h3, List.mem_append]

/-- The accumulator fold of `_collect_list` appends exactly the
first occurrences of the not-yet-collected non-blank entries. -/
lemma collect_foldl_spec (l : List Str) : ∀ acc : List Str,
    l.foldl (fun its it => if nonBlank it = true ∧ it ∉ its then its ++ [it] else its) acc
      = acc ++ firstOccurrences (l.filter (fun it => nonBlank it && decide (it ∉ acc))) := by
  induction l with
  | nil => intro acc; simp [firstOccurrences]
  | cons x xs ih =>
    intro acc
    by_cases hx : nonBlank x = true ∧ x ∉ acc
    · have hcons : List.filter (fun it => nonBlank it && decide (it ∉ acc)) (x :: xs)
          = x :: List.filter (fun it => nonBlank it && decide (it ∉ acc)) xs := by
        simp [List.filter_cons, hx.1, hx.2]
      rw [List.foldl_cons, if_pos hx, ih, hcons, firstOccurrences, List.append_assoc]
      congr 1
      rw [List.singleton_append]
      congr 1
      rw [List.filter_filter]
      congr 1
      apply List.filter_congr
      intro a _
      simpa using (step_pred_append acc x a)
    · have hcons : List.filter (fun it => nonBlank it && decide (it ∉ acc)) (x :: xs)
          = List.filter (fun it => nonBlank it && decide (it ∉ acc)) xs := by
        by_cases hb : nonBlank x = true
        · have hmem : x ∈ acc := by
            by_contra hn
            exact hx ⟨hb, hn⟩
          simp [List.filter_cons, hb, hmem]
        · have hb' : nonBlank x = false := by simpa using hb
          simp [List.filter_cons, hb']
      rw [List.foldl_cons, if_neg hx, ih, hcons]

/-- `_collect_list` over the three specialists equals the specification's
dedup of the concatenation. -/
lemma collect_list_eq_dedup (o1 o2 o3 : Option (List Str)) :
    collect_list [o1, o2, o3] = dedupNonBlank (o1.getD [] ++ o2.getD [] ++ o3.getD []) := by
  have inner : ∀ (o : Option (List Str)) (acc : List Str),
      (match o with
       | none => acc
       | some field_value =>
           field_value.foldl
             (fun its it => if nonBlank it = true ∧ it ∉ its then its ++ [it] else its) acc)
        = (o.getD []).foldl
            (fun its it => if nonBlank it = true ∧ it ∉ its then its ++ [it] else its) acc := by
    intro o acc; cases o <;> rfl
  show collect_list [o1, o2, o3] = _
  rw [collect_list]
  simp only [List.foldl_cons, List.foldl_nil]
  rw [inner, inner, inner, ← List.foldl_append, ← List.foldl_append, collect_foldl_spec]
  simp only [List.nil_append, List.not_mem_nil, not_false_iff, decide_True, Bool.and_true]
  rw [dedupNonBlank, ← List.append_assoc]

/-- C6: for each of the five factor/risk list fields, the merged list is the
concatenation of the three specialists' lists in the order macro,
technical, sentiment, with blank/whitespace-only entries and exact
duplicates dropped, first-seen order preserved; in particular a factor
emitted by both macro and technical appears exactly once, at macro's
position. -/
theorem claim_C6_factor_aggregation :
    (∀ o1 o2 o3 : Option (List Str),
      collect_list [o1, o2, o3] = dedupNonBlank (o1.getD [] ++ o2.getD [] ++ o3.getD [])) ∧
    (∀ mr tr sr : ResultDict,
      (synthesize mr tr sr).bullish_factors =
        dedupNonBlank (mr.bullish_factors.getD [] ++ tr.bullish_factors.getD []
          ++ sr.bullish_factors.getD []) ∧
      (synthesize mr tr sr).bearish_factors =
        dedupNonBlank (mr.bearish_factors.getD [] ++ tr.bearish_factors.getD []
          ++ sr.bearish_factors.getD []) ∧
      (synthesize mr tr sr).critical_factors =
        dedupNonBlank (mr.critical_factors.getD [] ++ tr.critical_factors.getD []
          ++ sr.critical_factors.getD []) ∧
      (synthesize mr tr sr).key_risks =
        dedupNonBlank (mr.key_risks.getD [] ++ tr.key_risks.getD [] ++ sr.key_risks.getD []) ∧
      (synthesize mr tr sr).risk_mitigations =
        dedupNonBlank (mr.risk_mitigations.getD [] ++ tr.risk_mitigations.getD []
          ++ sr.risk_mitigations.getD [])) ∧
    collect_list [some ["rate cut expected".toList],
        some ["rate cut expected".toList, "momentum strong".toList], none]
      = ["rate cut expected".toList, "momentum strong".toList] ∧
    collect_list [some ["a".toList, "  ".toList], some ["a".toList], some ["b".toList]]
      = ["a".toList, "b".toList] := by
  refine ⟨collect_list_eq_dedup, ?_, by decide, by decide⟩
  intro mr tr sr
  refine ⟨?_, ?_, ?_, ?_, ?_⟩ <;>
    simp only [synthesize] <;> exact collect_list_eq_dedup _ _ _

/-- Replacing the value stored under a key that is present makes lookup
return the new value. -/
lemma lookupA_replaceA_self {β : Type} (k : Str) (v : β) (l : List (Str × β)) (w : β)
    (h : Conv.lookupA k l = some w) :
    Conv.lookupA k (Conv.replaceA k v l) = some v := by
  induction l with
  | nil => simp [Conv.lookupA] at h
  | cons p rest ih =>
    obtain ⟨k', v'⟩ := p
    by_cases hk : k' = k
    · simp [Conv.replaceA, Conv.lookupA, hk]
    · simp only [Conv.replaceA, Conv.lookupA, if_neg hk] at h ⊢
      exact ih h

/-- C10 counterexample: with `limit = 0`, Python's `messages[-0:]` slice is
the whole list, so an existing one-message conversation yields one message
— more than the limit. -/
theorem claim_C10_counterexample :
    Conv.get_conversation_history Conv.sampleStore "s".toList "c".toList 0
      = [Conv.sampleMessage] ∧
    ¬ (Conv.get_conversation_history Conv.sampleStore "s".toList "c".toList 0).length ≤ 0 := by
  constructor <;> decide

/-- C10 (amended): for every existing conversation and every positive
limit, history retrieval returns the last `min limit length` messages — a
suffix of the append-ordered message list, hence at most `limit` messages,
the most recent ones, in original order (with `limit = 0` the Python slice
returns the whole list instead); for a missing session or conversation it
returns the empty list rather than failing. -/
theorem claim_C10_history_retrieval (store : Conv.Store) (sid cid : Str) (limit : Nat) :
    (Conv.get_conversation store sid cid = none →
      Conv.get_conversation_history store sid cid limit = []) ∧
    (∀ conv : Conv.ConversationContext,
      Conv.get_conversation store sid cid = some conv → 1 ≤ limit →
      Conv.get_conversation_history store sid cid limit
        = conv.messages.drop (conv.messages.length - limit) ∧
      (Conv.get_conversation_history store sid cid limit).length ≤ limit ∧
      Conv.get_conversation_history store sid cid limit <:+ conv.messages) := by
  constructor
  · intro h
    simp [Conv.get_conversation_history, h]
  · intro conv h hl
    have hh : Conv.get_conversation_history store sid cid limit
        = Conv.pySliceLast limit conv.messages := by
      simp [Conv.get_conversation_history, h]
    have hlim : limit ≠ 0 := by omega
    rw [hh, Conv.pySliceLast, if_neg hlim]
    refine ⟨rfl, ?_, List.drop_suffix _ _⟩
    rw [List.length_drop]
    omega

/-- C10 witness: the amended statement instantiated at the sample store
with limit 1. -/
theorem claim_C10_witness :
    Conv.get_conversation_history Conv.sampleStore "s".toList "c".toList 1
      = [Conv.sampleMessage] ∧
    (Conv.get_conversation_history Conv.sampleStore "s".toList "c".toList 1).length ≤ 1 := by
  have h := (claim_C10_history_retrieval Conv.sampleStore "s".toList "c".toList 1).2
    Conv.sampleContext rfl (by norm_num)
  exact ⟨by rw [h.1]; rfl, h.2.1⟩

/-- Looking up the updated conversation after a write-through replace of
the session. -/
lemma get_conversation_after_replace (store : Conv.Store) (sid cid : Str)
    (sess : Conv.ConversationSession) (conv conv2 : Conv.ConversationContext)
    (h1 : Conv.get_session store sid = some sess)
    (h2 : Conv.lookupA cid sess.conversations = some conv) :
    Conv.get_conversation
      (Conv.replaceA sid
        { sess with conversations := Conv.replaceA cid conv2 sess.conversations } store)
      sid cid = some conv2 := by
  have hs : Conv.lookupA sid
      (Conv.replaceA sid
        { sess with conversations := Conv.replaceA cid conv2 sess.conversations } store)
      = some { sess with conversations := Conv.replaceA cid conv2 sess.conversations } :=
    lookupA_replaceA_self sid _ store sess h1
  simp only [Conv.get_conversation, Conv.get_session, hs]
  exact lookupA_replaceA_self cid _ sess.conversations conv h2

/-- C8: add-message and update-context fail with a not-found error when the
session or the conversation is absent; on success, add-message appends the
new message to the conversation's message list, and update-context
overwrites exactly the three previous_outlook/previous_confidence/
previous_action fields and bumps last_updated, leaving the rest of the
conversation unchanged. -/
theorem claim_C8_conversation_ops (store : Conv.Store) (sid cid : Str)
    (role : Conv.MessageRole) (content : Str) (meta : List (Str × Str)) (fid : Str)
    (o : Str) (c : Rat) (a : Str) (now : Nat) :
    (Conv.get_session store sid = none →
      Conv.add_message store sid cid role content meta fid now
        = .error ("Session ".toList ++ sid ++ " not found".toList) ∧
      Conv.update_conversation_context store sid cid o c a now
        = .error ("Conversation ".toList ++ cid ++ " not found".toList)) ∧
    (∀ sess : Conv.ConversationSession, Conv.get_session store sid = some sess →
      Conv.lookupA cid sess.conversations = none →
      Conv.add_message store sid cid role content meta fid now
        = .error ("Conversation ".toList ++ cid ++ " not found in session".toList) ∧
      Conv.update_conversation_context store sid cid o c a now
        = .error ("Conversation ".toList ++ cid ++ " not found".toList)) ∧
    (∀ sess conv, Conv.get_session store sid = some sess →
      Conv.lookupA cid sess.conversations = some conv →
      (∃ store1,
        Conv.add_message store sid cid role content meta fid now
          = .ok (⟨fid, role, content, now, meta⟩, store1) ∧
        Conv.get_conversation store1 sid cid
          = some { conv with
              messages := conv.messages ++ [⟨fid, role, content, now, meta⟩] }) ∧
      (∃ store2,
        Conv.update_conversation_context store sid cid o c a now = .ok store2 ∧
        Conv.get_conversation store2 sid cid
          = some { conv with
              previous_outlook := some o
              previous_confidence := some c
              previous_action := some a
              last_updated := now })) := by
  refine ⟨?_, ?_, ?_⟩
  · intro h
    constructor
    · simp [Conv.add_message, h]
    · simp [Conv.update_conversation_context, h]
  · intro sess h1 h2
    constructor
    · simp [Conv.add_message, h1, h2]
    · simp [Conv.update_conversation_context, h1, h2]
  · intro sess conv h1 h2
    constructor
    · refine ⟨Conv.replaceA sid
          { sess with conversations := (Conv.replaceA cid
              ({ conv with
                 messages := conv.messages ++ [⟨fid, role, content, now, meta⟩] })
              sess.conversations) } store, ?_, ?_⟩
      · simp [Conv.add_message, h1, h2, Conv.ConversationContext.add_message]
      · exact get_conversation_after_replace store sid cid sess conv _ h1 h2
    · refine ⟨Conv.replaceA sid
          { sess with conversations := (Conv.replaceA cid
              ({ conv with
                 previous_outlook := some o
                 previous_confidence := some c
                 previous_action := some a
                 last_updated := now })
              sess.conversations) } store, ?_, ?_⟩
      · simp [Conv.update_conversation_context, h1, h2]
      · exact get_conversation_after_replace store sid cid sess conv _ h1 h2

/-- C8 witness: the success cases at the sample store — appending a second
message and updating the context — and the session-absent error on the
empty store. -/
theorem claim_C8_witness :
    (∃ store1,
      Conv.add_message Conv.sampleStore "s".toList "c".toList .assistant "fine".toList []
          "m2".toList 5
        = .ok (⟨"m2".toList, .assistant, "fine".toList, 5, []⟩, store1) ∧
      Conv.get_conversation store1 "s".toList "c".toList
        = some { Conv.sampleContext with
            messages := Conv.sampleContext.messages
              ++ [⟨"m2".toList, .assistant, "fine".toList, 5, []⟩] }) ∧
    (∃ store2,
      Conv.update_conversation_context Conv.sampleStore "s".toList "c".toList
          "bullish".toList (7/10) "buy".toList 5 = .ok store2 ∧
      Conv.get_conversation store2 "s".toList "c".toList
        = some { Conv.sampleContext with
            previous_outlook := some "bullish".toList
            previous_confidence := some (7/10)
            previous_action := some "buy".toList
            last_updated := 5 }) ∧
    Conv.add_message [] "s".toList "c".toList .user "x".toList [] "m".toList 0
      = .error ("Session ".toList ++ "s".toList ++ " not found".toList) := by
  have h := (claim_C8_conversation_ops Conv.sampleStore "s".toList "c".toList .assistant
    "fine".toList [] "m2".toList "bullish".toList (7/10) "buy".toList 5).2.2
    Conv.sampleSession Conv.sampleContext rfl rfl
  have h0 := (claim_C8_conversation_ops [] "s".toList "c".toList .user
    "x".toList [] "m".toList "o".toList 0 "a".toList 0).1 rfl
  refine ⟨?_, ?_, ?_⟩
  · obtain ⟨st1, ha, hg⟩ := h.1
    exact ⟨st1, ha, hg⟩
  · obtain ⟨st2, hu, hg⟩ := h.2
    exact ⟨st2, hu, hg⟩
  · exact h0.1

/-- Joining distributes over concatenation of the later parts. -/
lemma colonSegs_append (xs ys : List Str) :
    CacheKey.colonSegs (xs ++ ys) = CacheKey.colonSegs xs ++ CacheKey.colonSegs ys := by
  induction xs with
  | nil => simp [CacheKey.colonSegs]
  | cons q qs ih => simp [CacheKey.colonSegs, ih]

/-- Normal form of the fingerprint string: query, colon, asset symbol, then
one optional colon-prefixed segment per optional field, the context
segment keyed on `effCtx`. -/
lemma key_shape (r : CacheKey.Request) :
    CacheKey.generate_cache_key r
      = r.query ++ ':' :: (r.asset_symbol
          ++ (CacheKey.tagSeg [] r.timeframe
            ++ (CacheKey.tagSeg CacheKey.sTag r.session_id
              ++ (CacheKey.tagSeg CacheKey.cTag r.conversation_id
                ++ CacheKey.tagSeg CacheKey.xTag (CacheKey.effCtx r))))) := by
  obtain ⟨q, a, tf, sid, cid, cx, ex⟩ := r
  cases cx with
  | none =>
      cases tf <;> cases sid <;> cases cid <;>
        simp [CacheKey.generate_cache_key, CacheKey.key_parts, CacheKey.joinColon,
          colonSegs_append, CacheKey.colonSegs, CacheKey.tagSeg, CacheKey.effCtx,
          CacheKey.sTag, CacheKey.cTag, CacheKey.xTag, List.append_assoc]
  | some cv =>
      by_cases hcv : cv = a
      · cases tf <;> cases sid <;> cases cid <;>
          simp [CacheKey.generate_cache_key, CacheKey.key_parts, CacheKey.joinColon,
            colonSegs_append, CacheKey.colonSegs, CacheKey.tagSeg, CacheKey.effCtx,
            CacheKey.sTag, CacheKey.cTag, CacheKey.xTag, List.append_assoc, hcv]
      · cases tf <;> cases sid <;> cases cid <;>
          simp [CacheKey.generate_cache_key, CacheKey.key_parts, CacheKey.joinColon,
            colonSegs_append, CacheKey.colonSegs, CacheKey.tagSeg, CacheKey.effCtx,
            CacheKey.sTag, CacheKey.cTag, CacheKey.xTag, List.append_assoc, hcv]

/-- An optional tagged segment followed by a fixed remainder determines the
optional value. -/
lemma tagSeg_inj (tag : Str) (o1 o2 : Option Str) (R : Str)
    (h : CacheKey.tagSeg tag o1 ++ R = CacheKey.tagSeg tag o2 ++ R) : o1 = o2 := by
  cases o1 with
  | none =>
    cases o2 with
    | none => rfl
    | some v =>
      exfalso
      have hl := congrArg List.length h
      simp only [CacheKey.tagSeg, List.length_append, List.length_cons, List.length_nil,
        List.nil_append] at hl
      omega
  | some v1 =>
    cases o2 with
    | none =>
      exfalso
      have hl := congrArg List.length h
      simp only [CacheKey.tagSeg, List.length_append, List.length_cons, List.length_nil,
        List.nil_append] at hl
      omega
    | some v2 =>
      simp only [CacheKey.tagSeg, List.cons_append, List.cons.injEq, List.append_assoc,
        List.append_cancel_left_eq, List.append_cancel_right_eq, true_and,
        Option.some.injEq] at h ⊢
      exact h

/-- Peeling the common query/colon/asset-symbol head off two equal
fingerprint strings. -/
lemma key_peel (q a X Y : Str)
    (h : q ++ ':' :: (a ++ X) = q ++ ':' :: (a ++ Y)) : X = Y := by
  have h1 := List.append_cancel_left h
  injection h1 with h2 h3
  exact List.append_cancel_left h3

/-- The effective context-asset field is a function of the raw context
asset and the asset symbol. -/
lemma effCtx_congr (r1 r2 : CacheKey.Request) (hx : r1.ctx_asset = r2.ctx_asset)
    (ha : r1.asset_symbol = r2.asset_symbol) :
    CacheKey.effCtx r1 = CacheKey.effCtx r2 := by
  unfold CacheKey.effCtx
  rw [hx, ha]

/-- C2: the cache key is a function of exactly
(query, asset_symbol, timeframe?, session_id?, conversation_id?,
context-asset-when-different): requests agreeing on these six fields get
the same key even if other context entries differ, and two requests
differing in exactly one of them get different keys — in particular two
requests differing only in conversation_id. Stated of the joined
fingerprint string; the md5 digest applied on top is a fixed deterministic
function of it. -/
theorem claim_C2_cache_key_fingerprint :
    (∀ r1 r2 : CacheKey.Request, CacheKey.fingerprint r1 = CacheKey.fingerprint r2 →
      CacheKey.generate_cache_key r1 = CacheKey.generate_cache_key r2) ∧
    (∀ r1 r2 : CacheKey.Request, r1.query ≠ r2.query →
      r1.asset_symbol = r2.asset_symbol → r1.timeframe = r2.timeframe →
      r1.session_id = r2.session_id → r1.conversation_id = r2.conversation_id →
      r1.ctx_asset = r2.ctx_asset →
      CacheKey.generate_cache_key r1 ≠ CacheKey.generate_cache_key r2) ∧
    (∀ r1 r2 : CacheKey.Request, r1.query = r2.query →
      r1.asset_symbol ≠ r2.asset_symbol → r1.timeframe = r2.timeframe →
      r1.session_id = r2.session_id → r1.conversation_id = r2.conversation_id →
      r1.ctx_asset = r2.ctx_asset →
      CacheKey.generate_cache_key r1 ≠ CacheKey.generate_cache_key r2) ∧
    (∀ r1 r2 : CacheKey.Request, r1.query = r2.query →
      r1.asset_symbol = r2.asset_symbol → r1.timeframe ≠ r2.timeframe →
      r1.session_id = r2.session_id → r1.conversation_id = r2.conversation_id →
      r1.ctx_asset = r2.ctx_asset →
      CacheKey.generate_cache_key r1 ≠ CacheKey.generate_cache_key r2) ∧
    (∀ r1 r2 : CacheKey.Request, r1.query = r2.query →
      r1.asset_symbol = r2.asset_symbol → r1.timeframe = r2.timeframe →
      r1.session_id ≠ r2.session_id → r1.conversation_id = r2.conversation_id →
      r1.ctx_asset = r2.ctx_asset →
      CacheKey.generate_cache_key r1 ≠ CacheKey.generate_cache_key r2) ∧
    (∀ r1 r2 : CacheKey.Request, r1.query = r2.query →
      r1.asset_symbol = r2.asset_symbol → r1.timeframe = r2.timeframe →
      r1.session_id = r2.session_id → r1.conversation_id ≠ r2.conversation_id →
      r1.ctx_asset = r2.ctx_asset →
      CacheKey.generate_cache_key r1 ≠ CacheKey.generate_cache_key r2) ∧
    (∀ r1 r2 : CacheKey.Request, r1.query = r2.query →
      r1.asset_symbol = r2.asset_symbol → r1.timeframe = r2.timeframe →
      r1.session_id = r2.session_id → r1.conversation_id = r2.conversation_id →
      CacheKey.effCtx r1 ≠ CacheKey.effCtx r2 →
      CacheKey.generate_cache_key r1 ≠ CacheKey.generate_cache_key r2) := by
  refine ⟨?_, ?_, ?_, ?_, ?_, ?_, ?_⟩
  · intro r1 r2 h
    have h' : r1.query = r2.query ∧ r1.asset_symbol = r2.asset_symbol ∧
        r1.timeframe = r2.timeframe ∧ r1.session_id = r2.session_id ∧
        r1.conversation_id = r2.conversation_id ∧
        CacheKey.effCtx r1 = CacheKey.effCtx r2 := by
      simpa [CacheKey.fingerprint, Prod.ext_iff] using h
    obtain ⟨hq, ha, htf, hs, hc, hx⟩ := h'
    rw [key_shape r1, key_shape r2, hq, ha, htf, hs, hc, hx]
  · intro r1 r2 hq ha htf hs hc hx hK
    rw [key_shape r1, key_shape r2, ha, htf, hs, hc, effCtx_congr r1 r2 hx ha] at hK
    exact hq (List.append_cancel_right hK)
  · intro r1 r2 hq ha htf hs hc hx hK
    rw [key_shape r1, key_shape r2, hq, htf, hs, hc] at hK
    have h1 := List.append_cancel_left hK
    injection h1 with h2 h3
    cases hcx : r1.ctx_asset with
    | none =>
        have hcx2 : r2.ctx_asset = none := by rw [← hx]; exact hcx
        have e1 : CacheKey.effCtx r1 = none := by unfold CacheKey.effCtx; rw [hcx]
        have e2 : CacheKey.effCtx r2 = none := by unfold CacheKey.effCtx; rw [hcx2]
        rw [e1, e2] at h3
        exact ha (List.append_cancel_right h3)
    | some cv =>
        have hcx2 : r2.ctx_asset = some cv := by rw [← hx]; exact hcx
        by_cases h1a : cv = r1.asset_symbol <;> by_cases h2a : cv = r2.asset_symbol
        · exact ha (h1a.symm.trans h2a)
        · have e1 : CacheKey.effCtx r1 = none := by
            unfold CacheKey.effCtx; rw [hcx]; simp [h1a]
          have e2 : CacheKey.effCtx r2 = some cv := by
            unfold CacheKey.effCtx; rw [hcx2]; simp [h2a]
          rw [e1, e2] at h3
          have hl := congrArg List.length h3
          simp only [CacheKey.tagSeg, List.length_append, List.length_cons,
            List.length_nil] at hl
          have hcl : cv.length = r1.asset_symbol.length := by rw [h1a]
          omega
        · have e1 : CacheKey.effCtx r1 = some cv := by
            unfold CacheKey.effCtx; rw [hcx]; simp [h1a]
          have e2 : CacheKey.effCtx r2 = none := by
            unfold CacheKey.effCtx; rw [hcx2]; simp [h2a]
          rw [e1, e2] at h3
          have hl := congrArg List.length h3
          simp only [CacheKey.tagSeg, List.length_append, List.length_cons,
            List.length_nil] at hl
          have hcl : cv.length = r2.asset_symbol.length := by rw [h2a]
          omega
        · have e1 : CacheKey.effCtx r1 = some cv := by
            unfold CacheKey.effCtx; rw [hcx]; simp [h1a]
          have e2 : CacheKey.effCtx r2 = some cv := by
            unfold CacheKey.effCtx; rw [hcx2]; simp [h2a]
          rw [e1, e2] at h3
          exact ha (List.append_cancel_right h3)
  · intro r1 r2 hq ha htf hs hc hx hK
    rw [key_shape r1, key_shape r2, hq, ha, hs, hc, effCtx_congr r1 r2 hx ha] at hK
    have h3 := key_peel _ _ _ _ hK
    exact htf (tagSeg_inj _ _ _ _ h3)
  · intro r1 r2 hq ha htf hs hc hx hK
    rw [key_shape r1, key_shape r2, hq, ha, htf, hc, effCtx_congr r1 r2 hx ha] at hK
    have h3 := key_peel _ _ _ _ hK
    have h4 := List.append_cancel_left h3
    exact hs (tagSeg_inj _ _ _ _ h4)
  · intro r1 r2 hq ha htf hs hc hx hK
    rw [key_shape r1, key_shape r2, hq, ha, htf, hs, effCtx_congr r1 r2 hx ha] at hK
    have h3 := key_peel _ _ _ _ hK
    have h4 := List.append_cancel_left h3
    have h5 := List.append_cancel_left h4
    exact hc (tagSeg_inj _ _ _ _ h5)
  · intro r1 r2 hq ha htf hs hc hx hK
    rw [key_shape r1, key_shape r2, hq, ha, htf, hs, hc] at hK
    have h3 := key_peel _ _ _ _ hK
    have h4 := List.append_cancel_left h3
    have h5 := List.append_cancel_left h4
    have h6 := List.append_cancel_left h5
    have h7 : CacheKey.tagSeg CacheKey.xTag (CacheKey.effCtx r1) ++ []
        = CacheKey.tagSeg CacheKey.xTag (CacheKey.effCtx r2) ++ [] := by
      simpa using h6
    exact hx (tagSeg_inj _ _ _ [] h7)

/-- C2 witness: a request whose non-fingerprint context (`extra`) differs
keeps the same key, and a request differing only in conversation_id gets a
different key. -/
theorem claim_C2_witness :
    CacheKey.generate_cache_key CacheKey.sampleRequest
      = CacheKey.generate_cache_key { CacheKey.sampleRequest with extra := [] } ∧
    CacheKey.generate_cache_key CacheKey.sampleRequest
      ≠ CacheKey.generate_cache_key
          { CacheKey.sampleRequest with conversation_id := some "c-2".toList } :=
  ⟨claim_C2_cache_key_fingerprint.1 _ _ (by rfl),
   claim_C2_cache_key_fingerprint.2.2.2.2.2.1 _ _ rfl rfl rfl rfl (by decide) rfl⟩

end MarketSense
